import Mathlib

/-!
Shallow embedding of `src/include/hso/frame_handler_base.h` — the supervisory
state machine of the HSO visual-odometry pipeline (class `FrameHandlerBase`):
the stage state machine, the command latch, the tracking-quality classifier,
the telemetry window and the map lifecycle, together with proofs of the
behavioural properties stated in the design document.

The repository sources contain only the class declaration header.  The inline
member functions found there (`map`, `reset`, `start`, `stage`,
`trackingQuality`, `lastProcessingTime`, `lastNumObservations`, `resetAll`)
are translated directly from that code.  The member functions whose bodies
live in a translation unit that is not part of the sources
(`startFrameProcessingCommon`, `finishFrameProcessingCommon`, `resetCommon`,
`setTrackingQuality`), and the utility primitives included from headers that
are not part of the sources (`hso/map.h`, `hso/vikit/timer.h`,
`hso/vikit/ringbuffer.h`), are modelled from the design document; each such
definition carries a doc comment saying so.
-/

namespace hso

/-- Source `enum Stage` (frame_handler_base.h lines 51–57): the current stage of the
algorithm. -/
inductive Stage
  | STAGE_PAUSED
  | STAGE_FIRST_FRAME
  | STAGE_SECOND_FRAME
  | STAGE_DEFAULT_FRAME
  | STAGE_RELOCALIZING
  deriving DecidableEq, Repr

/-- Source `enum TrackingQuality` (frame_handler_base.h lines 58–62). -/
inductive TrackingQuality
  | TRACKING_INSUFFICIENT
  | TRACKING_BAD
  | TRACKING_GOOD
  deriving DecidableEq, Repr

/-- Source `enum UpdateResult` (frame_handler_base.h lines 63–67): the outcome of
processing one frame, produced by the concrete pipeline. -/
inductive UpdateResult
  | RESULT_NO_KEYFRAME
  | RESULT_IS_KEYFRAME
  | RESULT_FAILURE
  deriving DecidableEq, Repr

/-- Modelled from the spec: the owned `Map` aggregate (`hso/map.h` is not among
the sources).  The core only creates the map, exposes it read-only and
destroys it — it never mutates map contents itself — so the map is modelled
abstractly as the list of keyframes it currently holds. -/
structure Map where
  keyframes : List Nat
  deriving DecidableEq, Repr

/-- Modelled from the spec: `Map::reset` destroys the current map and replaces
it with an empty one. -/
def Map.reset (_m : Map) : Map := ⟨[]⟩

/-- The empty map (the state of a freshly created or freshly reset map). -/
def Map.emptyMap : Map := ⟨[]⟩

/-- Modelled from the spec: the monotonic stopwatch primitive
(`hso/vikit/timer.h` is not among the sources).  `start` begins a measurement;
`stop` ends it and records the elapsed wall-clock time, which enters the model
as an oracle input because real time is outside the embedding; `getTime`
returns the most recently recorded time. -/
structure Timer where
  running : Bool
  time_ : ℚ
  deriving DecidableEq, Repr

/-- Start the stopwatch. -/
def Timer.start (t : Timer) : Timer := { t with running := true }

/-- Stop the stopwatch, recording the elapsed time of the measurement. -/
def Timer.stop (_t : Timer) (elapsed : ℚ) : Timer := ⟨false, elapsed⟩

/-- Return the time recorded by the last completed measurement. -/
def Timer.getTime (t : Timer) : ℚ := t.time_

/-- Modelled from the spec: the fixed-capacity rolling buffer primitive
(`hso/vikit/ringbuffer.h` is not among the sources).  Ring semantics: a push
appends the new entry and evicts the oldest entry once the buffer is full.
`data` lists the held entries oldest first. -/
structure RingBuffer (α : Type) where
  capacity : Nat
  data : List α
  deriving DecidableEq, Repr

/-- Push an element, evicting the oldest entry when the buffer is full
(when the buffer is not yet full the drop count is zero). -/
def RingBuffer.push {α : Type} (rb : RingBuffer α) (x : α) : RingBuffer α :=
  ⟨rb.capacity, (rb.data ++ [x]).drop (rb.data.length + 1 - rb.capacity)⟩

/-- A freshly constructed, empty rolling buffer of the given capacity. -/
def RingBuffer.emptyBuf (α : Type) (cap : Nat) : RingBuffer α := ⟨cap, []⟩

/-- Modelled from the spec: the externally supplied numeric policy of the
tracking-quality classifier — the minimum absolute feature count and the
maximum tolerated relative drop (as a fraction of the previous frame's
count).  The spec forbids hard-coding values, so the configuration is a
parameter of the model. -/
structure Config where
  qualityMinFts : Nat
  qualityMaxDropFrac : ℚ
  deriving DecidableEq, Repr

/-- The aggregate state of `class FrameHandlerBase` (frame_handler_base.h
lines 95–104), field for field. -/
structure FrameHandlerBase where
  stage_ : Stage
  set_reset_ : Bool
  set_start_ : Bool
  map_ : Map
  timer_ : Timer
  acc_frame_timings_ : RingBuffer ℚ
  acc_num_obs_ : RingBuffer Nat
  num_obs_last_ : Nat
  tracking_quality_ : TrackingQuality
  regular_counter_ : Nat
  deriving DecidableEq, Repr

namespace FrameHandlerBase

/-- Source `const Map& map() const { return map_; }` (line 74): a const accessor,
embedded as the returned value together with the (unchanged) object state. -/
def map (s : FrameHandlerBase) : Map × FrameHandlerBase := (s.map_, s)

/-- Source `void reset() { set_reset_ = true; }` (line 77). -/
def reset (s : FrameHandlerBase) : FrameHandlerBase := { s with set_reset_ := true }

/-- Source `void start() { set_start_ = true; }` (line 80). -/
def start (s : FrameHandlerBase) : FrameHandlerBase := { s with set_start_ := true }

/-- Source `Stage stage() const { return stage_; }` (line 83). -/
def stage (s : FrameHandlerBase) : Stage × FrameHandlerBase := (s.stage_, s)

/-- Source `TrackingQuality trackingQuality() const { return tracking_quality_; }`
(line 86). -/
def trackingQuality (s : FrameHandlerBase) : TrackingQuality × FrameHandlerBase :=
  (s.tracking_quality_, s)

/-- Source `double lastProcessingTime() const { return timer_.getTime(); }` (line 89). -/
def lastProcessingTime (s : FrameHandlerBase) : ℚ × FrameHandlerBase :=
  (s.timer_.getTime, s)

/-- Source `size_t lastNumObservations() const { return num_obs_last_; }` (line 92). -/
def lastNumObservations (s : FrameHandlerBase) : Nat × FrameHandlerBase :=
  (s.num_obs_last_, s)

/-- Modelled from the spec: `resetCommon` (declared at frame_handler_base.h
line 116; its body is in a translation unit that is not among the sources).
§4.5: the reset transition clears `pendingReset`, recreates the Map, moves to
the initial `Paused` stage, and clears the regular-frame counter and the
stored quality/observation history.  The pending-start flag is not touched:
per §4.5 a simultaneously pending start is evaluated afterwards against the
freshly reset state. -/
def resetCommon (s : FrameHandlerBase) : FrameHandlerBase :=
  { s with
    map_ := s.map_.reset
    stage_ := Stage.STAGE_PAUSED
    set_reset_ := false
    regular_counter_ := 0
    num_obs_last_ := 0
    tracking_quality_ := TrackingQuality.TRACKING_INSUFFICIENT
    acc_frame_timings_ := RingBuffer.emptyBuf ℚ s.acc_frame_timings_.capacity
    acc_num_obs_ := RingBuffer.emptyBuf Nat s.acc_num_obs_.capacity }

/-- Source `virtual void resetAll() { resetCommon(); }` (line 119): the base-class
implementation of the overridable full reset just delegates to `resetCommon`. -/
def resetAll (s : FrameHandlerBase) : FrameHandlerBase := resetCommon s

/-- Modelled from the spec: `setTrackingQuality` (declared at
frame_handler_base.h line 122; its body is not among the sources).  §4.2:
below the minimum absolute feature count → `Insufficient`; otherwise a
relative drop beyond the maximum fraction of the previous frame's count →
`Bad`; otherwise `Good`.  The drop test `prev - n > frac * prev` states
"the relative drop exceeds the fraction" without a division.  Its only side
effects are updating the stored current quality and the stored last
observation count. -/
def setTrackingQuality (cfg : Config) (s : FrameHandlerBase)
    (num_observations : Nat) : FrameHandlerBase :=
  let q :=
    if num_observations < cfg.qualityMinFts then
      TrackingQuality.TRACKING_INSUFFICIENT
    else if (s.num_obs_last_ : ℚ) - (num_observations : ℚ) >
        cfg.qualityMaxDropFrac * (s.num_obs_last_ : ℚ) then
      TrackingQuality.TRACKING_BAD
    else
      TrackingQuality.TRACKING_GOOD
  { s with tracking_quality_ := q, num_obs_last_ := num_observations }

/-- Modelled from the spec: `startFrameProcessingCommon` (declared at
frame_handler_base.h line 107; its body is not among the sources).  §4.5
begin-frame gate, effects in order: (1) if `pendingReset`, perform the reset
transition — reset is applied first and a pending start is then evaluated
against the freshly reset state; (2) if `pendingStart` and the stage is
`Paused`, transition to `FirstFrame` and clear `pendingStart`; (3) start the
stopwatch.  Returns `false` exactly when the frame must be skipped: the stage
(after the pending transitions) is `Paused`, which happens precisely when it
was `Paused` with no start pending. -/
def startFrameProcessingCommon (s : FrameHandlerBase) (_timestamp : ℚ) :
    Bool × FrameHandlerBase :=
  let s1 := if s.set_reset_ = true then resetCommon s else s
  let s2 :=
    if s1.set_start_ = true ∧ s1.stage_ = Stage.STAGE_PAUSED then
      { s1 with stage_ := Stage.STAGE_FIRST_FRAME, set_start_ := false }
    else s1
  let s3 := { s2 with timer_ := s2.timer_.start }
  (decide ¬(s3.stage_ = Stage.STAGE_PAUSED), s3)

/-- Modelled from the spec: `finishFrameProcessingCommon` (declared at
frame_handler_base.h lines 110–113; its body is not among the sources).  §4.5
end-frame gate, effects in order: (1) stop the stopwatch and record its
elapsed time together with the observation count into the telemetry window;
(2) invoke the tracking-quality classifier with the observation count and the
prior stored count; (3) if `IsKeyframe`, zero the regular-frame counter; if
`NotKeyframe`, increment it; if `Failure`, leave the counter alone and, when
already past initialization (`DefaultFrame`, or already `Relocalizing` per
§7), force the stage to `Relocalizing` and the quality to `Insufficient` —
a failure during `FirstFrame`/`SecondFrame` stays in the same stage;
(4) return a status summarizing whether a keyframe was produced. -/
def finishFrameProcessingCommon (cfg : Config) (s : FrameHandlerBase)
    (_update_id : Nat) (dropout : UpdateResult) (num_observations : Nat)
    (elapsed : ℚ) : Int × FrameHandlerBase :=
  let t := s.timer_.stop elapsed
  let s1 :=
    { s with
      timer_ := t
      acc_frame_timings_ := s.acc_frame_timings_.push t.getTime
      acc_num_obs_ := s.acc_num_obs_.push num_observations }
  let s2 := setTrackingQuality cfg s1 num_observations
  let s3 :=
    match dropout with
    | UpdateResult.RESULT_IS_KEYFRAME => { s2 with regular_counter_ := 0 }
    | UpdateResult.RESULT_NO_KEYFRAME =>
        { s2 with regular_counter_ := s2.regular_counter_ + 1 }
    | UpdateResult.RESULT_FAILURE =>
        if s2.stage_ = Stage.STAGE_DEFAULT_FRAME ∨
            s2.stage_ = Stage.STAGE_RELOCALIZING then
          { s2 with
            stage_ := Stage.STAGE_RELOCALIZING
            tracking_quality_ := TrackingQuality.TRACKING_INSUFFICIENT }
        else s2
  (if dropout = UpdateResult.RESULT_IS_KEYFRAME then 1 else 0, s3)

/-- A call to one of the two frame-boundary gates, with its oracle inputs:
the timestamp for the begin-frame gate; the frame identifier, pipeline
outcome, observation count and measured elapsed time for the end-frame
gate. -/
inductive GateOp
  | begin (timestamp : ℚ)
  | finish (update_id : Nat) (dropout : UpdateResult)
      (num_observations : Nat) (elapsed : ℚ)
  deriving DecidableEq, Repr

/-- The state transformation performed by one gate call. -/
def gateStep (cfg : Config) (s : FrameHandlerBase) : GateOp → FrameHandlerBase
  | GateOp.begin ts => (s.startFrameProcessingCommon ts).2
  | GateOp.finish id d n e => (FrameHandlerBase.finishFrameProcessingCommon cfg s id d n e).2

/-- The stage transitions of §4.5 that a gate call is allowed to perform on
its own (no pending commands): no change, the initialization successes
`FirstFrame → SecondFrame` and `SecondFrame → DefaultFrame`, the
relocalization success `Relocalizing → DefaultFrame`, and the failure
transition `DefaultFrame → Relocalizing`. -/
def AllowedStageStep (a b : Stage) : Prop :=
  b = a ∨
  (a = Stage.STAGE_FIRST_FRAME ∧ b = Stage.STAGE_SECOND_FRAME) ∨
  (a = Stage.STAGE_SECOND_FRAME ∧ b = Stage.STAGE_DEFAULT_FRAME) ∨
  (a = Stage.STAGE_RELOCALIZING ∧ b = Stage.STAGE_DEFAULT_FRAME) ∨
  (a = Stage.STAGE_DEFAULT_FRAME ∧ b = Stage.STAGE_RELOCALIZING)

/-- One public read accessor of `FrameHandlerBase` (lines 73–92). -/
inductive Accessor
  | map
  | stage
  | trackingQuality
  | lastProcessingTime
  | lastNumObservations
  deriving DecidableEq, Repr

/-- The state transformation performed by calling one read accessor: the
state component of the accessor's embedding. -/
def runAccessor (s : FrameHandlerBase) : Accessor → FrameHandlerBase
  | Accessor.map => s.map.2
  | Accessor.stage => s.stage.2
  | Accessor.trackingQuality => s.trackingQuality.2
  | Accessor.lastProcessingTime => s.lastProcessingTime.2
  | Accessor.lastNumObservations => s.lastNumObservations.2

/-- The begin-frame gate exactly as claim C1 words it: the start request is
evaluated only when no reset was pending (an `otherwise` between steps (1)
and (2)), the stopwatch is then started, and the call returns `false` iff the
resulting stage is `Paused` with no start pending. -/
def claimedBeginGate (s : FrameHandlerBase) (_timestamp : ℚ) :
    Bool × FrameHandlerBase :=
  let s1 :=
    if s.set_reset_ = true then FrameHandlerBase.resetCommon s
    else if s.set_start_ = true ∧ s.stage_ = Stage.STAGE_PAUSED then
      { s with stage_ := Stage.STAGE_FIRST_FRAME, set_start_ := false }
    else s
  let s2 := { s1 with timer_ := s1.timer_.start }
  (decide ¬(s2.stage_ = Stage.STAGE_PAUSED ∧ s2.set_start_ = false), s2)

/-- Claim C1 as stated: every call to the begin-frame gate behaves exactly as
`claimedBeginGate` describes. -/
def C1Statement : Prop :=
  ∀ (s : FrameHandlerBase) (ts : ℚ),
    s.startFrameProcessingCommon ts = claimedBeginGate s ts

/-- A concrete handler state used in counterexamples and witnesses: steady
tracking (`DefaultFrame`), both a reset and a start pending, a non-empty map
and non-zero counters. -/
def sampleState : FrameHandlerBase :=
  { stage_ := Stage.STAGE_DEFAULT_FRAME
    set_reset_ := true
    set_start_ := true
    map_ := ⟨[7, 8]⟩
    timer_ := ⟨false, 3⟩
    acc_frame_timings_ := ⟨10, [1, 2]⟩
    acc_num_obs_ := ⟨10, [50, 60]⟩
    num_obs_last_ := 60
    tracking_quality_ := TrackingQuality.TRACKING_GOOD
    regular_counter_ := 4 }

/-- A concrete classifier configuration used in witnesses: at least 50
features, at most half of the previous count lost. -/
def sampleConfig : Config := ⟨50, 1 / 2⟩

/-- The trace of handler states visited while executing a sequence of gate
calls from a given state: the starting state followed by the states after
each successive call. -/
def gateTrace (cfg : Config) (s : FrameHandlerBase) : List GateOp → List FrameHandlerBase
  | [] => [s]
  | op :: ops => s :: gateTrace cfg (gateStep cfg s op) ops

/-- One end-frame gate call whose outcome is `Failure`, as a state
transformation; the frame identifier, observation count and elapsed time are
the components of the oracle input triple. -/
def failureStep (cfg : Config) (s : FrameHandlerBase) (p : Nat × Nat × ℚ) :
    FrameHandlerBase :=
  (finishFrameProcessingCommon cfg s p.1 UpdateResult.RESULT_FAILURE p.2.1 p.2.2).2

end FrameHandlerBase

end hso

namespace hso

namespace FrameHandlerBase

/-- C7: calling `reset()` any number of times `n ≥ 1` before the request is
consumed leaves the state identical to calling it exactly once — the
operation only sets the sticky `set_reset_` flag and is idempotent; the same
holds for `start()` and the `set_start_` flag. -/
theorem reset_and_start_idempotent (s : FrameHandlerBase) (n : Nat)
    (h : 1 ≤ n) : reset^[n] s = reset s ∧ start^[n] s = start s := by
  obtain ⟨m, rfl⟩ := Nat.exists_eq_add_of_le h
  constructor
  · rw [Nat.add_comm, Function.iterate_succ_apply]
    exact Function.iterate_fixed rfl m
  · rw [Nat.add_comm, Function.iterate_succ_apply]
    exact Function.iterate_fixed rfl m

/-- Witness for C7: three calls to `reset` (resp. `start`) on a concrete
state coincide with a single call. -/
theorem reset_and_start_idempotent_witness :
    reset^[3] sampleState = reset sampleState ∧
    start^[3] sampleState = start sampleState :=
  reset_and_start_idempotent sampleState 3 (by decide)

/-- C10: every public read accessor — `map()`, `stage()`,
`trackingQuality()`, `lastProcessingTime()`, `lastNumObservations()` — is a
pure read: it returns the corresponding stored field (`map()` the stored
map, `lastProcessingTime()` the stopwatch's recorded time) and leaves the
state unchanged, so interleaving any number of accessor calls between gate
calls leaves the state unchanged. -/
theorem accessors_are_pure_reads (s : FrameHandlerBase) :
    s.map = (s.map_, s) ∧
    s.stage = (s.stage_, s) ∧
    s.trackingQuality = (s.tracking_quality_, s) ∧
    s.lastProcessingTime = (s.timer_.getTime, s) ∧
    s.lastNumObservations = (s.num_obs_last_, s) ∧
    ∀ l : List Accessor, l.foldl runAccessor s = s := by
  refine ⟨rfl, rfl, rfl, rfl, rfl, ?_⟩
  intro l
  induction l with
  | nil => rfl
  | cons a l ih =>
    have hstep : runAccessor s a = s := by cases a <;> rfl
    rw [List.foldl_cons, hstep, ih]

/-- C4: at the end-frame gate, an `IsKeyframe` outcome sets the
regular-frame counter to zero and a `NotKeyframe` outcome increments it by
one. -/
theorem finish_regular_counter (cfg : Config) (s : FrameHandlerBase)
    (id n : Nat) (e : ℚ) :
    (finishFrameProcessingCommon cfg s id UpdateResult.RESULT_IS_KEYFRAME n e).2.regular_counter_
      = 0 ∧
    (finishFrameProcessingCommon cfg s id UpdateResult.RESULT_NO_KEYFRAME n e).2.regular_counter_
      = s.regular_counter_ + 1 := by
  constructor <;> simp [finishFrameProcessingCommon, setTrackingQuality]

/-- C5: the tracking-quality classifier yields `Insufficient` whenever the
observation count is below the configured minimum (regardless of the
previous stored count), `Bad` when the count reaches the minimum but the
drop from the previous count exceeds the configured maximum fraction of that
count, and `Good` otherwise; its only side effects are updating the stored
quality and the stored last observation count — every other field is left
unchanged. -/
theorem setTrackingQuality_classifier (cfg : Config) (s : FrameHandlerBase)
    (n : Nat) :
    (setTrackingQuality cfg s n).tracking_quality_ =
      (if n < cfg.qualityMinFts then TrackingQuality.TRACKING_INSUFFICIENT
       else if (s.num_obs_last_ : ℚ) - (n : ℚ) >
           cfg.qualityMaxDropFrac * (s.num_obs_last_ : ℚ) then
         TrackingQuality.TRACKING_BAD
       else TrackingQuality.TRACKING_GOOD) ∧
    (setTrackingQuality cfg s n).num_obs_last_ = n ∧
    (setTrackingQuality cfg s n).stage_ = s.stage_ ∧
    (setTrackingQuality cfg s n).set_reset_ = s.set_reset_ ∧
    (setTrackingQuality cfg s n).set_start_ = s.set_start_ ∧
    (setTrackingQuality cfg s n).map_ = s.map_ ∧
    (setTrackingQuality cfg s n).timer_ = s.timer_ ∧
    (setTrackingQuality cfg s n).acc_frame_timings_ = s.acc_frame_timings_ ∧
    (setTrackingQuality cfg s n).acc_num_obs_ = s.acc_num_obs_ ∧
    (setTrackingQuality cfg s n).regular_counter_ = s.regular_counter_ := by
  refine ⟨rfl, rfl, rfl, rfl, rfl, rfl, rfl, rfl, rfl, rfl⟩

/-- C3: when the end-frame gate is given a `Failure` outcome, a
`DefaultFrame` stage transitions to `Relocalizing` with the stored tracking
quality forced to `Insufficient`, while the `FirstFrame` and `SecondFrame`
initialization stages stay unchanged (no transition to `Relocalizing`);
a `Relocalizing` stage also stays at `Relocalizing`. -/
theorem finish_failure_stage_transition (cfg : Config)
    (s : FrameHandlerBase) (id n : Nat) (e : ℚ) :
    ((finishFrameProcessingCommon cfg s id UpdateResult.RESULT_FAILURE n e).2.stage_ =
      if s.stage_ = Stage.STAGE_DEFAULT_FRAME ∨ s.stage_ = Stage.STAGE_RELOCALIZING
      then Stage.STAGE_RELOCALIZING else s.stage_) ∧
    (s.stage_ = Stage.STAGE_DEFAULT_FRAME →
      (finishFrameProcessingCommon cfg s id UpdateResult.RESULT_FAILURE n e).2.tracking_quality_
        = TrackingQuality.TRACKING_INSUFFICIENT) := by
  rcases s with ⟨st, r, t0, m, tm, a1, a2, nl, q, rc⟩
  cases st <;>
    simp [finishFrameProcessingCommon, setTrackingQuality]

/-- Witness for C3: on a concrete `DefaultFrame` state, a `Failure` outcome
moves the stage to `Relocalizing` and the quality to `Insufficient`. -/
theorem finish_failure_stage_transition_witness :
    (finishFrameProcessingCommon sampleConfig sampleState 1
        UpdateResult.RESULT_FAILURE 55 2).2.stage_ = Stage.STAGE_RELOCALIZING ∧
    (finishFrameProcessingCommon sampleConfig sampleState 1
        UpdateResult.RESULT_FAILURE 55 2).2.tracking_quality_ =
      TrackingQuality.TRACKING_INSUFFICIENT := by
  have h := finish_failure_stage_transition sampleConfig sampleState 1 55 2
  exact ⟨h.1.trans (by decide), h.2 rfl⟩

/-- C1 counterexample: the begin-frame gate does not behave as the claim
words it.  On a state with both a reset and a start pending, the gate applies
the reset and then still consumes the pending start against the freshly
reset state, ending in `FirstFrame`, whereas the claim's `otherwise` predicts
that the start branch is skipped and the stage remains `Paused`. -/
theorem startFrame_gate_claim_false : ¬ C1Statement := by
  intro h
  have h2 := congrArg (fun p => p.2.stage_) (h sampleState 0)
  simp [startFrameProcessingCommon, claimedBeginGate, resetCommon,
    Map.reset, Timer.start, RingBuffer.emptyBuf, sampleState] at h2

/-- C1 amended: at the begin-frame gate, first a pending reset is applied;
then — also after a reset — a pending start at stage `Paused` moves the
stage to `FirstFrame`; the stopwatch is started; and the call returns
`false` if and only if the resulting stage is `Paused` with no start
pending (the frame must be skipped). -/
theorem startFrame_gate_characterization (s : FrameHandlerBase) (ts : ℚ) :
    ((s.startFrameProcessingCommon ts).2.stage_ =
      if s.set_reset_ = true then
        (if s.set_start_ = true then Stage.STAGE_FIRST_FRAME else Stage.STAGE_PAUSED)
      else
        (if s.set_start_ = true ∧ s.stage_ = Stage.STAGE_PAUSED then
          Stage.STAGE_FIRST_FRAME
        else s.stage_)) ∧
    (s.startFrameProcessingCommon ts).2.timer_.running = true ∧
    (s.set_reset_ = true → (s.startFrameProcessingCommon ts).2.map_ = Map.emptyMap) ∧
    ((s.startFrameProcessingCommon ts).1 = false ↔
      (s.startFrameProcessingCommon ts).2.stage_ = Stage.STAGE_PAUSED ∧
        (s.startFrameProcessingCommon ts).2.set_start_ = false) := by
  rcases s with ⟨st, r, t0, m, tm, a1, a2, nl, q, rc⟩
  cases r <;> cases t0 <;> cases st <;>
    simp [startFrameProcessingCommon, resetCommon, Map.reset, Map.emptyMap,
      Timer.start, RingBuffer.emptyBuf]

/-- Witness for C1 (amended): on a concrete state with both a reset and a
start pending, the gate ends at `FirstFrame` with an empty map, a running
stopwatch, and returns `true`. -/
theorem startFrame_gate_characterization_witness :
    (sampleState.startFrameProcessingCommon 0).2.stage_ = Stage.STAGE_FIRST_FRAME ∧
    (sampleState.startFrameProcessingCommon 0).2.map_ = Map.emptyMap ∧
    (sampleState.startFrameProcessingCommon 0).2.timer_.running = true ∧
    (sampleState.startFrameProcessingCommon 0).1 = true := by
  have h := startFrame_gate_characterization sampleState 0
  have h1 : (sampleState.startFrameProcessingCommon 0).2.stage_ =
      Stage.STAGE_FIRST_FRAME := h.1.trans (by decide)
  refine ⟨h1, h.2.2.1 rfl, h.2.1, ?_⟩
  have hne : ¬((sampleState.startFrameProcessingCommon 0).2.stage_ =
      Stage.STAGE_PAUSED ∧
      (sampleState.startFrameProcessingCommon 0).2.set_start_ = false) := by
    intro hc
    have hq := h1.symm.trans hc.1
    exact absurd hq (by decide)
  cases hb : (sampleState.startFrameProcessingCommon 0).1
  · exact absurd (h.2.2.2.mp hb) hne
  · rfl

/-- C2: whenever a reset request is pending at a frame boundary, the
begin-frame gate consumes it and afterwards the stage equals `Paused` — or
`FirstFrame` when a start request was also pending, because the reset is
applied first and the start is then evaluated against the freshly reset
state — the regular-frame counter is 0 and the map is empty. -/
theorem startFrame_reset_consumed (s : FrameHandlerBase) (ts : ℚ)
    (h : s.set_reset_ = true) :
    (s.startFrameProcessingCommon ts).2.stage_ =
      (if s.set_start_ = true then Stage.STAGE_FIRST_FRAME else Stage.STAGE_PAUSED) ∧
    (s.startFrameProcessingCommon ts).2.set_reset_ = false ∧
    (s.startFrameProcessingCommon ts).2.regular_counter_ = 0 ∧
    (s.startFrameProcessingCommon ts).2.map_ = Map.emptyMap := by
  rcases s with ⟨st, r, t0, m, tm, a1, a2, nl, q, rc⟩
  cases r
  · simp at h
  · cases t0 <;> cases st <;>
      simp [startFrameProcessingCommon, resetCommon, Map.reset, Map.emptyMap,
        Timer.start, RingBuffer.emptyBuf]

/-- Witness for C2: on a concrete mid-stream state (`DefaultFrame`,
non-empty map, non-zero counter) with reset and start both pending, the
next begin-frame gate call leaves stage `FirstFrame`, counter 0 and an
empty map. -/
theorem startFrame_reset_consumed_witness :
    (sampleState.startFrameProcessingCommon 0).2.stage_ = Stage.STAGE_FIRST_FRAME ∧
    (sampleState.startFrameProcessingCommon 0).2.regular_counter_ = 0 ∧
    (sampleState.startFrameProcessingCommon 0).2.map_ = Map.emptyMap := by
  have h := startFrame_reset_consumed sampleState 0 rfl
  exact ⟨h.1.trans (by decide), h.2.2.1, h.2.2.2⟩

end FrameHandlerBase

/-- Folding pushes over a rolling buffer whose fill does not exceed its
capacity keeps the capacity and leaves exactly the suffix of the combined
insertion sequence that fits. -/
lemma foldl_push_spec {α : Type} (xs : List α) (rb : RingBuffer α)
    (h : rb.data.length ≤ rb.capacity) :
    (xs.foldl RingBuffer.push rb).capacity = rb.capacity ∧
    (xs.foldl RingBuffer.push rb).data =
      (rb.data ++ xs).drop (rb.data.length + xs.length - rb.capacity) := by
  induction xs generalizing rb with
  | nil =>
    refine ⟨rfl, ?_⟩
    simp only [List.foldl_nil, List.append_nil, List.length_nil, Nat.add_zero]
    rw [Nat.sub_eq_zero_of_le h, List.drop_zero]
  | cons x xs ih =>
    have hlen : (rb.push x).data.length ≤ (rb.push x).capacity := by
      simp only [RingBuffer.push, List.length_drop, List.length_append,
        List.length_cons, List.length_nil]
      omega
    obtain ⟨hc, hd⟩ := ih (rb.push x) hlen
    rw [List.foldl_cons]
    refine ⟨hc, hd.trans ?_⟩
    simp only [RingBuffer.push, List.length_drop]
    rw [← List.drop_append_of_le_length (by simp), List.drop_drop,
      ← List.append_cons]
    congr 1
    simp only [List.length_append, List.length_cons, List.length_nil]
    omega

namespace FrameHandlerBase

/-- C6: each telemetry buffer (the per-frame timing buffer and the per-frame
observation-count buffer share this ring structure) never holds more than
its capacity of entries, and once more than `capacity` entries have been
inserted it holds exactly the most recent `capacity` values in insertion
order — the oldest entries having been evicted first. -/
theorem telemetry_window_ring_semantics (α : Type) (cap : Nat) (xs : List α)
    (h : cap < xs.length) :
    (∀ n : Nat,
      (((xs.take n).foldl RingBuffer.push (RingBuffer.emptyBuf α cap)).data.length ≤ cap)) ∧
    (xs.foldl RingBuffer.push (RingBuffer.emptyBuf α cap)).data =
      xs.drop (xs.length - cap) ∧
    (xs.foldl RingBuffer.push (RingBuffer.emptyBuf α cap)).data.length = cap := by
  refine ⟨?_, ?_, ?_⟩
  · intro n
    have hs := foldl_push_spec (xs.take n) (RingBuffer.emptyBuf α cap)
      (by simp [RingBuffer.emptyBuf])
    rw [hs.2]
    simp only [RingBuffer.emptyBuf, List.nil_append, List.length_nil,
      List.length_drop, Nat.zero_add]
    omega
  · have hs := foldl_push_spec xs (RingBuffer.emptyBuf α cap)
      (by simp [RingBuffer.emptyBuf])
    rw [hs.2]
    simp [RingBuffer.emptyBuf]
  · have hs := foldl_push_spec xs (RingBuffer.emptyBuf α cap)
      (by simp [RingBuffer.emptyBuf])
    rw [hs.2]
    simp only [RingBuffer.emptyBuf, List.nil_append, List.length_nil,
      List.length_drop, Nat.zero_add]
    omega

/-- Witness for C6: pushing twelve values into an empty capacity-10 buffer
(the reference capacity) leaves exactly the ten most recent values in
insertion order, every prefix of the insertion sequence respects the bound,
and the final fill equals the capacity. -/
theorem telemetry_window_ring_semantics_witness :
    (((([0, 1, 2, 3, 4, 5, 6, 7, 8, 9, 10, 11] : List Nat).take 7).foldl
        RingBuffer.push (RingBuffer.emptyBuf Nat 10)).data.length ≤ 10) ∧
    (([0, 1, 2, 3, 4, 5, 6, 7, 8, 9, 10, 11] : List Nat).foldl
        RingBuffer.push (RingBuffer.emptyBuf Nat 10)).data =
      [2, 3, 4, 5, 6, 7, 8, 9, 10, 11] := by
  have h := telemetry_window_ring_semantics Nat 10
    [0, 1, 2, 3, 4, 5, 6, 7, 8, 9, 10, 11] (by decide)
  exact ⟨h.1 7, h.2.1.trans (by decide)⟩

/-- C8: a `Failure` outcome after initialization is recoverable rather than
fatal: any sequence of end-frame gate calls that all report `Failure` from a
`Relocalizing` state keeps the stage at `Relocalizing` — each frame is
attempted exactly once, with no retry and no halt — and leaves the map and
the regular-frame counter untouched; accumulated state is never discarded
automatically on a bad frame. -/
theorem failure_is_recoverable (cfg : Config) (l : List (Nat × Nat × ℚ))
    (s : FrameHandlerBase) (h : s.stage_ = Stage.STAGE_RELOCALIZING) :
    (l.foldl (failureStep cfg) s).stage_ = Stage.STAGE_RELOCALIZING ∧
    (l.foldl (failureStep cfg) s).map_ = s.map_ ∧
    (l.foldl (failureStep cfg) s).regular_counter_ = s.regular_counter_ := by
  induction l generalizing s with
  | nil => exact ⟨h, rfl, rfl⟩
  | cons p l ih =>
    have hstep : (failureStep cfg s p).stage_ = Stage.STAGE_RELOCALIZING ∧
        (failureStep cfg s p).map_ = s.map_ ∧
        (failureStep cfg s p).regular_counter_ = s.regular_counter_ := by
      simp [failureStep, finishFrameProcessingCommon, setTrackingQuality, h]
    rw [List.foldl_cons]
    obtain ⟨h1, h2, h3⟩ := ih (failureStep cfg s p) hstep.1
    exact ⟨h1, h2.trans hstep.2.1, h3.trans hstep.2.2⟩

/-- Witness for C8: two concrete failing frames in a row from a concrete
`Relocalizing` state leave the stage at `Relocalizing` and the non-empty map
and non-zero counter untouched. -/
theorem failure_is_recoverable_witness :
    (([(1, 10, (2 : ℚ)), (2, 20, 3)]).foldl (failureStep sampleConfig)
        { sampleState with stage_ := Stage.STAGE_RELOCALIZING }).stage_ =
      Stage.STAGE_RELOCALIZING ∧
    (([(1, 10, (2 : ℚ)), (2, 20, 3)]).foldl (failureStep sampleConfig)
        { sampleState with stage_ := Stage.STAGE_RELOCALIZING }).map_ =
      ({ sampleState with stage_ := Stage.STAGE_RELOCALIZING } : FrameHandlerBase).map_ ∧
    (([(1, 10, (2 : ℚ)), (2, 20, 3)]).foldl (failureStep sampleConfig)
        { sampleState with stage_ := Stage.STAGE_RELOCALIZING }).regular_counter_ =
      ({ sampleState with stage_ := Stage.STAGE_RELOCALIZING } : FrameHandlerBase).regular_counter_ :=
  failure_is_recoverable sampleConfig [(1, 10, 2), (2, 20, 3)]
    { sampleState with stage_ := Stage.STAGE_RELOCALIZING } rfl

/-- With no pending commands, the begin-frame gate only starts the stopwatch:
the stage is unchanged and both command flags stay clear. -/
lemma startFrame_no_pending_effects (s : FrameHandlerBase) (ts : ℚ)
    (hr : s.set_reset_ = false) (hs : s.set_start_ = false) :
    (s.startFrameProcessingCommon ts).2.stage_ = s.stage_ ∧
    (s.startFrameProcessingCommon ts).2.set_reset_ = false ∧
    (s.startFrameProcessingCommon ts).2.set_start_ = false := by
  simp [startFrameProcessingCommon, hr, hs, Timer.start]

/-- The end-frame gate never touches the command flags, and on its own it
only performs stage transitions allowed by §4.5. -/
lemma finish_flags_and_stage (cfg : Config) (s : FrameHandlerBase) (id : Nat)
    (d : UpdateResult) (n : Nat) (e : ℚ) :
    (finishFrameProcessingCommon cfg s id d n e).2.set_reset_ = s.set_reset_ ∧
    (finishFrameProcessingCommon cfg s id d n e).2.set_start_ = s.set_start_ ∧
    AllowedStageStep s.stage_ (finishFrameProcessingCommon cfg s id d n e).2.stage_ := by
  rcases s with ⟨st, r, t0, m, tm, a1, a2, nl, q, rc⟩
  cases d <;> cases st <;>
    simp [finishFrameProcessingCommon, setTrackingQuality, AllowedStageStep]

/-- A gate call on a state with no pending commands keeps both flags clear
and performs only stage transitions allowed by §4.5. -/
lemma gateStep_no_pending (cfg : Config) (s : FrameHandlerBase) (op : GateOp)
    (hr : s.set_reset_ = false) (hs : s.set_start_ = false) :
    (gateStep cfg s op).set_reset_ = false ∧
    (gateStep cfg s op).set_start_ = false ∧
    AllowedStageStep s.stage_ (gateStep cfg s op).stage_ := by
  cases op with
  | begin ts =>
    obtain ⟨h1, h2, h3⟩ := startFrame_no_pending_effects s ts hr hs
    exact ⟨h2, h3, Or.inl h1⟩
  | finish id d n e =>
    obtain ⟨h1, h2, h3⟩ := finish_flags_and_stage cfg s id d n e
    exact ⟨h1.trans hr, h2.trans hs, h3⟩

/-- A gate trace always starts with its starting state. -/
lemma gateTrace_head (cfg : Config) (s : FrameHandlerBase) (ops : List GateOp) :
    (gateTrace cfg s ops).head? = some s := by
  cases ops <;> rfl

/-- C9: along any sequence of begin-frame and end-frame gate calls executed
with neither a start nor a reset request pending, consecutive stages are
related only by the §4.5 transitions (initialization successes, failure
`DefaultFrame → Relocalizing`, or no change); in particular a begin-frame
gate call with no pending commands leaves the stage unchanged. -/
theorem gate_sequence_stage_discipline (cfg : Config) (s : FrameHandlerBase)
    (ops : List GateOp) (ts : ℚ)
    (hr : s.set_reset_ = false) (hs : s.set_start_ = false) :
    List.Chain' (fun a b => AllowedStageStep a.stage_ b.stage_) (gateTrace cfg s ops) ∧
    (s.startFrameProcessingCommon ts).2.stage_ = s.stage_ := by
  refine ⟨?_, (startFrame_no_pending_effects s ts hr hs).1⟩
  induction ops generalizing s with
  | nil => simp [gateTrace]
  | cons op ops ih =>
    rw [gateTrace, List.chain'_cons']
    obtain ⟨h1, h2, h3⟩ := gateStep_no_pending cfg s op hr hs
    refine ⟨?_, ih (gateStep cfg s op) h1 h2⟩
    intro b hb
    rw [gateTrace_head, Option.mem_some_iff] at hb
    rw [hb] at h3
    exact h3

/-- Witness for C9: a concrete four-call gate sequence from a command-free
`DefaultFrame` state only visits allowed stage transitions, and the first
begin-frame gate call leaves the stage unchanged. -/
theorem gate_sequence_stage_discipline_witness :
    List.Chain' (fun a b => AllowedStageStep a.stage_ b.stage_)
      (gateTrace sampleConfig
        { sampleState with set_reset_ := false, set_start_ := false }
        [GateOp.begin 0,
         GateOp.finish 1 UpdateResult.RESULT_NO_KEYFRAME 55 2,
         GateOp.finish 2 UpdateResult.RESULT_FAILURE 10 1,
         GateOp.begin 3]) ∧
    (({ sampleState with set_reset_ := false, set_start_ := false } :
        FrameHandlerBase).startFrameProcessingCommon 0).2.stage_ =
      ({ sampleState with set_reset_ := false, set_start_ := false } :
        FrameHandlerBase).stage_ :=
  gate_sequence_stage_discipline sampleConfig
    { sampleState with set_reset_ := false, set_start_ := false }
    [GateOp.begin 0,
     GateOp.finish 1 UpdateResult.RESULT_NO_KEYFRAME 55 2,
     GateOp.finish 2 UpdateResult.RESULT_FAILURE 10 1,
     GateOp.begin 3] 0 rfl rfl

end FrameHandlerBase

end hso
